import Mathlib

/-
Verification development for the mcp-omega stream-resolution service.

The definitions below are a shallow embedding of the Python sources:
  * `src/app/utils/parser.py`     (VideoParser: metadata extraction and scoring)
  * `src/app/services/realdebrid.py` (RealDebridService.resolve_stream)
  * `src/app/services/torbox.py`  (TorBoxService.resolve_stream, first file-selection block)
  * `src/app/api/mcp.py`          (JSON-RPC tool handler: search cascade tier 3, resolve routing)

Strings are modelled as lists of characters with ASCII case folding
(`Char.toLower` / `Char.toUpper`), matching Python's `str.lower()` /
`str.upper()` on the ASCII release names the service handles.  Python's
substring operator `in` is modelled by `containsTok`; machine integers are
`Int` (Python ints are unbounded, so no wrap-around is modelled).
-/

namespace MCPOmega

/-- Characters of a string literal, the model of a Python `str` value. -/
def tok (s : String) : List Char := s.data

/-- Python `filename.lower()` (ASCII case folding). -/
def lowerStr (s : String) : List Char := s.data.map Char.toLower

/-- Python `title.upper()` (ASCII case folding). -/
def upperStr (s : String) : List Char := s.data.map Char.toUpper

/-- Python `pat in hay` on strings: `pat` occurs as a contiguous substring. -/
def containsTok (hay : List Char) (pat : List Char) : Bool :=
  match hay with
  | [] => pat.isEmpty
  | _ :: t => pat.isPrefixOf hay || containsTok t pat

/-- Python `any(x in filename for x in pats)`. -/
def containsAny (hay : List Char) (pats : List (List Char)) : Bool :=
  pats.any (fun p => containsTok hay p)

/-- Python `endswith` against one suffix. -/
def endsWithTok (hay : List Char) (suffix : List Char) : Bool :=
  suffix.isSuffixOf hay

/-- parser.py line 8 onwards: `VideoParser.get_quality`. -/
def get_quality (filename : String) : String :=
  let f := lowerStr filename
  if containsAny f [tok "2160p", tok "4k", tok "uhd"] then "4K"
  else if containsTok f (tok "1080p") then "1080p"
  else if containsTok f (tok "720p") then "720p"
  else if containsTok f (tok "480p") then "480p"
  else "Unknown"

/-- parser.py lines 30-46: `VideoParser.get_audio`. -/
def get_audio (filename : String) : List String :=
  let f := lowerStr filename
  (if containsAny f [tok "atmos"] then ["atmos"] else []) ++
  (if containsAny f [tok "dts-hd", tok "dts:x", tok "dtsx"] then ["dts-x"] else []) ++
  (if containsAny f [tok "truehd"] then ["truehd"] else []) ++
  (if containsAny f [tok "eac3", tok "ddp", tok "dd+", tok "dolby digital plus"] then ["eac3"] else []) ++
  (if containsAny f [tok "ac3", tok "dd5.1"] then ["ac3"] else []) ++
  (if containsAny f [tok "aac"] then ["aac"] else [])

/-- parser.py lines 48-58: `VideoParser.get_hdr` (the `hdr`/`hdr10` test is an
`elif` of the `hdr10+` test). -/
def get_hdr (filename : String) : List String :=
  let f := lowerStr filename
  (if containsAny f [tok "dv", tok "dovi", tok "dolby vision"] then ["dolby_vision"] else []) ++
  (if containsAny f [tok "hdr10+", tok "hdr10plus"] then ["hdr10+"]
   else if containsAny f [tok "hdr", tok "hdr10"] then ["hdr10"] else [])

/-- parser.py lines 60-73: `VideoParser.get_source`. -/
def get_source (filename : String) : String :=
  let f := lowerStr filename
  if containsAny f [tok "remux", tok "bdremux"] then "remux"
  else if containsAny f [tok "bluray", tok "bdrip", tok "brrip"] then "bluray"
  else if containsAny f [tok "webdl", tok "web-dl", tok "webrip", tok "hbo", tok "amzn", tok "nf"] then "web"
  else if containsAny f [tok "hdtv"] then "hdtv"
  else if containsAny f [tok "cam", tok "ts", tok "telesync", tok "camrip"] then "cam"
  else "unknown"

/-- parser.py line 102: the hevc tokens of the hard filter. -/
def hevcTokens : List (List Char) := [tok "hevc", tok "h265", tok "x265"]

/-- parser.py line 104: the eac3/atmos-family tokens of the hard filter. -/
def eac3Tokens : List (List Char) := [tok "eac3", tok "ddp", tok "dd+", tok "atmos"]

/-- parser.py line 106: the Dolby-Vision/HDR10+ tokens of the hard filter. -/
def dvTokens : List (List Char) := [tok "dv", tok "dovi", tok "dolby vision", tok "hdr10+"]

/-- parser.py line 110: the junk ("garbage") tokens. -/
def junkTokens : List (List Char) := [tok "cam", tok "ts", tok "telesync", tok "camrip", tok "sample"]

/-- parser.py lines 100-111: the part of `VideoParser.score_file` that returns
before the size (or any additive score) is computed: hard exclusion filters,
then the junk filter.  `none` means execution falls through to the additive
scoring. -/
def earlyScore (filename : String) (exclude_hevc exclude_eac3 exclude_dolby_vision : Bool) :
    Option Int :=
  let f := lowerStr filename
  if exclude_hevc && containsAny f hevcTokens then some (-1000)
  else if exclude_eac3 && containsAny f eac3Tokens then some (-1000)
  else if exclude_dolby_vision && containsAny f dvTokens then some (-1000)
  else if containsAny f junkTokens then some (-500)
  else none

/-- parser.py lines 113-136: quality + source + audio + HDR additive score. -/
def contentScore (filename : String) : Int :=
  (let q := get_quality filename
   if q = "4K" then 200 else if q = "1080p" then 100 else if q = "720p" then 50 else 0) +
  (let src := get_source filename
   if src = "remux" then 100 else if src = "bluray" then 80 else if src = "web" then 50 else 0) +
  (let audio := get_audio filename
   if audio.contains "atmos" || audio.contains "truehd" || audio.contains "dts-x" then 40
   else if audio.contains "eac3" then 20 else 0) +
  ((let hdr := get_hdr filename
    if hdr.contains "dolby_vision" then 50 else 0) +
   (let hdr := get_hdr filename
    if hdr.contains "hdr10" || hdr.contains "hdr10+" then 30 else 0))

/-- One GiB, parser.py line 141. -/
def gib : Int := 1073741824

/-- parser.py lines 138-142: `min(int(size_bytes / 1 GiB), 50)`.  For the byte
counts that occur (magnitude below 2^53) the float division by a power of two
is exact, and Python's `int()` truncates toward zero, i.e. `Int.tdiv`. -/
def sizeBonus (size_bytes : Int) : Int := min (Int.tdiv size_bytes gib) 50

/-- parser.py lines 91-144: `VideoParser.score_file` on well-typed arguments
(`size_bytes` an int). -/
def score_file (filename : String) (size_bytes : Int)
    (exclude_hevc exclude_eac3 exclude_dolby_vision : Bool) : Int :=
  match earlyScore filename exclude_hevc exclude_eac3 exclude_dolby_vision with
  | some v => v
  | none => contentScore filename + sizeBonus size_bytes

/-- A Python value passed as the `size_bytes` argument: an int, a str, or None. -/
inductive PyVal where
  | int (n : Int)
  | str (s : String)
  | pynone
deriving DecidableEq

/-- A Python runtime error. -/
inductive PyErr where
  | typeError
deriving DecidableEq

/-- `VideoParser.score_file` as executed by CPython when `size_bytes` is an
arbitrary value: the hard filters and the junk filter return before the size is
touched, but the additive path evaluates `size_bytes / (1024*1024*1024)`
(parser.py line 141), which raises `TypeError` unless `size_bytes` is numeric.
There is no guard or defaulting for malformed sizes in the source. -/
def score_file_py (filename : String) (size_bytes : PyVal)
    (exclude_hevc exclude_eac3 exclude_dolby_vision : Bool) : Except PyErr Int :=
  match earlyScore filename exclude_hevc exclude_eac3 exclude_dolby_vision with
  | some v => .ok v
  | none =>
    match size_bytes with
    | .int n => .ok (contentScore filename + sizeBonus n)
    | _ => .error .typeError

/-- One file of a Real-Debrid torrent listing (realdebrid.py line 121):
`id`, `path`, `bytes`. -/
structure RDFile where
  id : Nat
  path : String
  bytes : Int
deriving DecidableEq

/-- One file of a TorBox torrent listing (torbox.py line 113): `id`, `name`,
`size`. -/
structure TBFile where
  id : Nat
  name : String
  size : Int
deriving DecidableEq

/-- realdebrid.py line 123 / torbox.py line 113: the known video containers
(`.lower().endswith((".mp4", ".mkv", ".avi", ".mov", ".webm"))`). -/
def isVideoName (s : String) : Bool :=
  [tok ".mp4", tok ".mkv", tok ".avi", tok ".mov", tok ".webm"].any
    (fun ext => endsWithTok (lowerStr s) ext)

/-- Insert `x` into a list that is already sorted by `key` descending, after
every element whose key is at least `key x` (stability of Python's sort). -/
def insertDesc {α : Type} (key : α → Int) (x : α) : List α → List α
  | [] => [x]
  | y :: ys => if key x ≤ key y then y :: insertDesc key x ys else x :: y :: ys

/-- Python `list.sort(key=key, reverse=True)`: stable sort by `key` descending
(elements with equal keys keep their original relative order). -/
def sortDescStable {α : Type} (key : α → Int) (l : List α) : List α :=
  l.foldl (fun acc x => insertDesc key x acc) []

/-- Python `"{:02d}".format(n)`: decimal digits, zero-padded to width 2. -/
def pad2 (n : Nat) : String := if n < 10 then "0" ++ toString n else toString n

/-- realdebrid.py lines 173-178 / torbox.py lines 128-133: the four episode
patterns `S{season:02d}E{episode:02d}`, `S{season}E{episode}`,
`{season}x{episode:02d}`, `{season}x{episode}`, already lower-cased (the
source compiles them with `(?i)`, and they are literal patterns, so the
case-insensitive `re.search` is substring containment after lower-casing). -/
def episodePatterns (season episode : Nat) : List (List Char) :=
  [ tok ("s" ++ pad2 season ++ "e" ++ pad2 episode)
  , tok ("s" ++ toString season ++ "e" ++ toString episode)
  , tok (toString season ++ "x" ++ pad2 episode)
  , tok (toString season ++ "x" ++ toString episode) ]

/-- A filename matches the target episode iff some of the four patterns occurs
in it (the source breaks at the first matching pattern; for the per-file
decision this is `List.any`). -/
def matchesEpisode (season episode : Nat) (name : String) : Bool :=
  (episodePatterns season episode).any (fun p => containsTok (lowerStr name) p)

/-- realdebrid.py lines 130-148: the score of one file inside
`RealDebridService.resolve_stream`: `VideoParser.score_file` on the file's
path and size, then, when the instant-availability pre-check produced a set
(`cached_file_ids is not None`), the score is replaced by -2000 if
`str(f.get("id"))` is not in that set. -/
def rdScored (cached : Option (List String)) (e1 e2 e3 : Bool) (f : RDFile) : Int :=
  let s := score_file f.path f.bytes e1 e2 e3
  match cached with
  | some c => if c.contains (toString f.id) then s else -2000
  | none => s

/-- realdebrid.py lines 131-156: the ranked list: video files whose (penalty-
adjusted) score exceeds -900, sorted by score descending (Python's stable
sort). -/
def rdFilteredRanked (files : List RDFile) (cached : Option (List String))
    (e1 e2 e3 : Bool) : List RDFile :=
  sortDescStable (fun f => rdScored cached e1 e2 e3 f)
    ((files.filter (fun f => isVideoName f.path)).filter
      (fun f => rdScored cached e1 e2 e3 f > -900))

/-- realdebrid.py lines 158-164: use the ranked list if it is non-empty,
otherwise fall back to all video files sorted by size descending. -/
def rdRankedFiles (files : List RDFile) (cached : Option (List String))
    (e1 e2 e3 : Bool) : List RDFile :=
  let ranked := rdFilteredRanked files cached e1 e2 e3
  if ranked.isEmpty then
    sortDescStable (fun f => f.bytes) (files.filter (fun f => isVideoName f.path))
  else ranked

/-- realdebrid.py lines 166-199: pick a file id from the (ranked or fallback)
list `vfiles`.  With both season and episode given, the loop keeps the first
file that matches one of the four patterns and has a truthy (non-zero) id;
otherwise — and when no file matched — `video_files[0].get("id")` is used,
followed by `if not best_file_id: return None`. -/
def rdSelectId (vfiles : List RDFile) (season episode : Option Nat) : Option Nat :=
  let matched : Option RDFile :=
    match season, episode with
    | some s, some e => vfiles.find? (fun f => (f.id != 0) && matchesEpisode s e f.path)
    | _, _ => none
  match matched with
  | some f => some f.id
  | none =>
    match vfiles.head? with
    | some f => if f.id = 0 then none else some f.id
    | none => none

/-- realdebrid.py lines 120-204: the file-selection part of
`RealDebridService.resolve_stream`: filter to video files (`return None` when
none), score and rank with the availability penalty, then select. -/
def rdPick (files : List RDFile) (cached : Option (List String)) (e1 e2 e3 : Bool)
    (season episode : Option Nat) : Option Nat :=
  if (files.filter (fun f => isVideoName f.path)).isEmpty then none
  else rdSelectId (rdRankedFiles files cached e1 e2 e3) season episode

/-- torbox.py lines 112-160: the FIRST file-selection block of
`TorBoxService.resolve_stream`: filter to video files (`return None` when
none); with season and episode given, collect all files matching one of the
four patterns and take the id of the largest by size; when that id is falsy
(no match, or id 0), fall back to the largest video file; `return None` when
the final id is falsy.  The `best_file_id` this block computes is DEAD: there
is no `return` between line 160 and line 176, so execution falls through into
the duplicated block at lines 176-310, which re-adds the torrent and
recomputes the selection (the only later read of this block's result is the
always-succeeding `int(best_file_id)` at line 165).  The block still matters
as a gate: its early `return None` exits abort the call. -/
def tbFirstBlockPick (files : List TBFile) (season episode : Option Nat) : Option Nat :=
  let video := files.filter (fun f => isVideoName f.name)
  if video.isEmpty then none
  else
    let fromMatch : Nat :=
      match season, episode with
      | some s, some e =>
        match sortDescStable (fun f => f.size)
            (video.filter (fun f => matchesEpisode s e f.name)) with
        | [] => 0
        | m :: _ => m.id
      | _, _ => 0
    let best : Nat :=
      if fromMatch = 0 then
        match sortDescStable (fun f => f.size) video with
        | [] => 0
        | v :: _ => v.id
      else fromMatch
    if best = 0 then none else some best

/-- torbox.py lines 249-299: the file selection that actually reaches the
`requestdl` call.  After the torrent is re-added (line 185) and re-hydrated,
`best_file_id` is reset (line 255) and recomputed with NO season/episode
matching: the largest video file (lines 266-270), else the largest file of
any kind (lines 273-279).  `none` covers the empty file list (line 257);
every integer id survives the `int(best_file_id)` conversion at line 285. -/
def tbSecondBlockPick (files : List TBFile) : Option Nat :=
  if files.isEmpty then none
  else
    match sortDescStable (fun f => f.size) (files.filter (fun f => isVideoName f.name)) with
    | v :: _ => some v.id
    | [] =>
      match sortDescStable (fun f => f.size) files with
      | f :: _ => some f.id
      | [] => none

/-- torbox.py lines 19-310: the file id `TorBoxService.resolve_stream`
ultimately sends to `requestdl`, as a function of the torrent's file list
(the re-added torrent has the same info-hash, hence the same files): the
first block must not exit early, and then its selection is discarded and the
second block's episode-independent selection is used. -/
def tbResolvePick (files : List TBFile) (season episode : Option Nat) : Option Nat :=
  match tbFirstBlockPick files season episode with
  | none => none
  | some _ => tbSecondBlockPick files

/-- The end-to-end file list of the spec's selection scenario (Real-Debrid
shape). -/
def exampleFile1 : RDFile := ⟨1, "Show.S01E01.720p-GRP.mkv", 1000000000⟩

/-- Second file of the spec's selection scenario (Real-Debrid shape). -/
def exampleFile2 : RDFile := ⟨2, "Show.S01E02.1080p-GRP.mkv", 2000000000⟩

/-- The spec's end-to-end file list, Real-Debrid shape. -/
def exampleFiles : List RDFile := [exampleFile1, exampleFile2]

/-- The spec's end-to-end file list, TorBox shape. -/
def exampleTBFiles : List TBFile :=
  [⟨1, "Show.S01E01.720p-GRP.mkv", 1000000000⟩, ⟨2, "Show.S01E02.1080p-GRP.mkv", 2000000000⟩]

/-- The JSON of one `GET /torrents/info/{id}` Real-Debrid response
(realdebrid.py lines 97-101): status string, files, links. -/
structure RDTorrentInfo where
  status : String
  files : List RDFile
  links : List String
deriving DecidableEq

/-- One Real-Debrid poll response: HTTP status code and body. -/
structure RDInfoResp where
  code : Nat
  info : RDTorrentInfo
deriving DecidableEq

/-- realdebrid.py line 96: `for attempt in range(15)`. -/
def rdPollBudget : Nat := 15

/-- realdebrid.py line 109: `await asyncio.sleep(1.0)`, in milliseconds. -/
def rdPollIntervalMs : Nat := 1000

/-- torbox.py line 70: `max_retries = 30`. -/
def tbPollBudget : Nat := 30

/-- torbox.py line 100: `await asyncio.sleep(2.0)`, in milliseconds. -/
def tbPollIntervalMs : Nat := 2000

/-- realdebrid.py lines 96-109: the hydration poll loop.  `resp` gives the
provider's response at each attempt; `acc` is `target_torrent`, updated on
every 200 response and kept across attempts; the loop breaks as soon as the
current response carries a non-empty file list, and otherwise runs out of
fuel after `rdPollBudget` attempts. -/
def rdPollFrom (resp : Nat → RDInfoResp) :
    Nat → Nat → Option RDTorrentInfo → Option RDTorrentInfo
  | 0, _, acc => acc
  | fuel + 1, attempt, acc =>
    let r := resp attempt
    let acc' := if r.code = 200 then some r.info else acc
    if r.code = 200 ∧ r.info.files ≠ [] then acc'
    else rdPollFrom resp fuel (attempt + 1) acc'

/-- The Real-Debrid poll loop started at attempt 0 with no torrent info yet. -/
def rdPoll (resp : Nat → RDInfoResp) : Option RDTorrentInfo :=
  rdPollFrom resp rdPollBudget 0 none

/-- realdebrid.py lines 111-118: after the poll loop, `return None` when no
info was ever obtained or when the file list is still empty; otherwise
hydration succeeded with that torrent info. -/
def rdHydrate (resp : Nat → RDInfoResp) : Option RDTorrentInfo :=
  match rdPoll resp with
  | none => none
  | some t => if t.files.isEmpty then none else some t

/-- One torrent of a TorBox `mylist` response (torbox.py lines 81-88). -/
structure TBTorrent where
  id : Nat
  download_state : String
  files : List TBFile
deriving DecidableEq

/-- torbox.py lines 70-100: the hydration poll loop of the first (reachable)
block.  `find` gives, per attempt, the torrent found in that attempt's
`mylist` response (`none` covers a non-200 response, `success: false`, and the
torrent being absent from the list).  `target_torrent` is kept across
attempts; the loop breaks when its file list is non-empty. -/
def tbPollFrom (find : Nat → Option TBTorrent) :
    Nat → Nat → Option TBTorrent → Option TBTorrent
  | 0, _, acc => acc
  | fuel + 1, attempt, acc =>
    let acc' := match find attempt with
      | some t => some t
      | none => acc
    match acc' with
    | some t => if t.files ≠ [] then some t else tbPollFrom find fuel (attempt + 1) acc'
    | none => tbPollFrom find fuel (attempt + 1) acc'

/-- The TorBox poll loop started at attempt 0 with no torrent found yet. -/
def tbPoll (find : Nat → Option TBTorrent) : Option TBTorrent :=
  tbPollFrom find tbPollBudget 0 none

/-- torbox.py lines 102-110: after the poll loop, `return None` when the
torrent was never found or when its file list is still empty. -/
def tbHydrate (find : Nat → Option TBTorrent) : Option TBTorrent :=
  match tbPoll find with
  | none => none
  | some t => if t.files.isEmpty then none else some t

/-- True iff a list of Python keyword-argument names has no repetition.
CPython rejects a call expression with a repeated keyword argument at compile
time ("SyntaxError: keyword argument repeated"), which makes the whole module
unimportable. -/
def distinctKeywords : List String → Bool
  | [] => true
  | k :: rest => !(rest.contains k) && distinctKeywords rest

/-- The keyword-argument names of the `VideoParser.score_file` call inside
`RealDebridService.resolve_stream`, in source order (realdebrid.py lines
133-140): `exclude_eac3` appears on both line 137 and line 138. -/
def rdScoreCallKeywords : List String :=
  ["filename", "size_bytes", "exclude_hevc", "exclude_eac3", "exclude_eac3",
   "exclude_dolby_vision"]

/-- The parameter names of `TorBoxService.resolve_stream` (torbox.py line 19).
The signature has no `**kwargs`. -/
def torboxResolveParams : List String :=
  ["self", "source_id", "info_hash", "magnet", "api_key", "season", "episode"]

/-- The keyword-argument names the orchestrator passes to
`debrid_service.resolve_stream` (mcp.py lines 422-432). -/
def mcpResolveCallKeywords : List String :=
  ["source_id", "info_hash", "magnet", "api_key", "season", "episode",
   "exclude_hevc", "exclude_eac3", "exclude_dolby_vision"]

/-- True iff every keyword argument of a call names a declared parameter.  For
a Python function without `**kwargs`, an unexpected keyword argument makes the
call raise `TypeError` instead of running the function body. -/
def keywordsAccepted (params callKeywords : List String) : Bool :=
  callKeywords.all (fun k => params.contains k)

/-- The outcome of one `RealDebridService.resolve_stream` run, one constructor
per exit point of realdebrid.py: success (line 255), and the failure exits at
lines 60 (no key), 81 (add non-2xx), 87 (no torrent id), 113 (no info after
polling), 118 (empty file list), 128 (no video files), 212 (selection
rejected), 240 (status `downloading`, not cached), 246 (no link generated),
258 (unrestrict non-200). -/
inductive RDResult where
  | success (url : String)
  | missingKey
  | addFailed
  | noTorrentId
  | hydrationTimeout
  | noFiles
  | noVideoFiles
  | selectionFailed
  | notCached
  | linkGenerationFailed
deriving DecidableEq

/-- What `resolve_stream` returns to its caller for each outcome: the code
returns the stream URL on success and the bare `None` at every failure exit,
carrying no failure kind. -/
def rdReturnValue : RDResult → Option String
  | .success url => some url
  | _ => none

/-- A JSON-RPC error object: code and message. -/
structure JsonRpcError where
  code : Int
  message : String
deriving DecidableEq

/-- The transport-level reply of the `resolve` tool call. -/
inductive McpResolveResponse where
  | result (url : String)
  | error (e : JsonRpcError)
deriving DecidableEq

/-- mcp.py lines 445-448: the single error produced whenever the adapter
returned a falsy stream URL. -/
def genericResolveError : JsonRpcError := ⟨-32001, "Failed to resolve stream"⟩

/-- mcp.py lines 397-404: the error produced when no debrid API key is
configured. -/
def missingCredentialsError : JsonRpcError :=
  ⟨-32000, "No API keys configured. Please add TorBox or Real-Debrid API key in VOID Settings → MCP Settings → Omega."⟩

/-- mcp.py lines 434-448: the transport maps the adapter's return value to a
JSON-RPC reply: a result wrapping the URL when it is truthy (`if stream_url:`,
so the empty string is also mapped to the error), else the one generic
error. -/
def mcpResolveResponse (stream_url : Option String) : McpResolveResponse :=
  match stream_url with
  | some url => if url = "" then .error genericResolveError else .result url
  | none => .error genericResolveError

/-- Python regex `\w` on the ASCII titles handled here: letters, digits,
underscore. -/
def isWordChar (c : Char) : Bool := c.isAlphanum || c = '_'

/-- Numeric value of a decimal digit character. -/
def digitVal (c : Char) : Nat := c.toNat - '0'.toNat

/-- Greedy `(\d{1,2})` at the start of the input with nothing after it in the
pattern: two digits when available, else one, else no match; the value is
Python's `int` of the matched digits. -/
def take12Digits : List Char → Option Nat
  | [] => none
  | [d1] => if d1.isDigit then some (digitVal d1) else none
  | d1 :: d2 :: _ =>
    if d1.isDigit then
      some (if d2.isDigit then digitVal d1 * 10 + digitVal d2 else digitVal d1)
    else none

/-- Greedy `(\d{1,3})` at the start of the input with nothing after it in the
pattern. -/
def take123Digits : List Char → Option Nat
  | [] => none
  | [d1] => if d1.isDigit then some (digitVal d1) else none
  | [d1, d2] =>
    if d1.isDigit then
      some (if d2.isDigit then digitVal d1 * 10 + digitVal d2 else digitVal d1)
    else none
  | d1 :: d2 :: d3 :: _ =>
    if d1.isDigit then
      some (if d2.isDigit then
              if d3.isDigit then digitVal d1 * 100 + digitVal d2 * 10 + digitVal d3
              else digitVal d1 * 10 + digitVal d2
            else digitVal d1)
    else none

/-- `[xX]\d+` at the start of the input: an x (either case) followed by at
least one digit (`\d+` is greedy but nothing follows it in the pattern). -/
def xThenDigit : List Char → Bool
  | x :: d :: _ => (x = 'x' || x = 'X') && d.isDigit
  | _ => false

/-- Second alternative `(\d{1,2})[xX]\d+` of the season regex of mcp.py line
257, tried at one start position, with the backtracking of the greedy
`\d{1,2}`: two digits before the x when possible, else one. -/
def seasonAlt2 : List Char → Option Nat
  | [] => none
  | d1 :: rest =>
    if !d1.isDigit then none
    else
      match rest with
      | d2 :: rest2 =>
        if d2.isDigit && xThenDigit rest2 then some (digitVal d1 * 10 + digitVal d2)
        else if xThenDigit rest then some (digitVal d1)
        else none
      | [] => none

/-- Branch `SEASON\W?` of the first alternative of the season regex, tried at
one start position: the literal `SEASON`, an optional non-word character
(greedy, with backtracking to the empty match), then `(\d{1,2})`. -/
def seasonWord (cs : List Char) : Option Nat :=
  if (tok "SEASON").isPrefixOf cs then
    match cs.drop 6 with
    | [] => none
    | c :: rest2 =>
      if !(isWordChar c) then
        match take12Digits rest2 with
        | some n => some n
        | none => take12Digits (c :: rest2)
      else take12Digits (c :: rest2)
  else none

/-- First alternative `(?:S|SEASON\W?)(\d{1,2})` of the season regex, tried at
one start position: the branch `S` first, then the branch `SEASON\W?`. -/
def seasonAlt1 (cs : List Char) : Option Nat :=
  match cs with
  | 'S' :: rest =>
    match take12Digits rest with
    | some n => some n
    | none => seasonWord cs
  | _ => none

/-- Leftmost `re.search` of mcp.py line 257,
`(?:S|SEASON\W?)(\d{1,2})|(\d{1,2})[xX]\d+`: at each start position the first
alternative is tried before the second, and the result is
`int(group(1) or group(2))`. -/
def findSeasonFrom : List Char → Option Nat
  | [] => none
  | c :: t =>
    match seasonAlt1 (c :: t) with
    | some n => some n
    | none =>
      match seasonAlt2 (c :: t) with
      | some n => some n
      | none => findSeasonFrom t

/-- mcp.py lines 253-258: the season detected in a candidate's upper-cased
title. -/
def findSeason (title : String) : Option Nat := findSeasonFrom (upperStr title)

/-- Leftmost `re.search` of mcp.py line 262, `[xE](\d{1,3})`.  The input was
upper-cased at line 253, so the lower-case `x` of the class never occurs and
only `E<digits>` is ever detected. -/
def findEpisodeFrom : List Char → Option Nat
  | [] => none
  | c :: t =>
    if c = 'x' || c = 'E' then
      match take123Digits t with
      | some n => some n
      | none => findEpisodeFrom t
    else findEpisodeFrom t

/-- mcp.py lines 260-263: the episode detected in a candidate's upper-cased
title. -/
def findEpisode (title : String) : Option Nat := findEpisodeFrom (upperStr title)

/-- Python truthiness of `item_season` / `item_episode`: `None` and `0` are
falsy. -/
def optTruthy : Option Nat → Bool
  | none => false
  | some n => n != 0

/-- mcp.py lines 252-279: the tier-3 ("desperation") acceptance test for one
candidate title.  `season` is the request's season (the filter only runs when
it is truthy); `episode` is the request's episode, possibly absent.  The
candidate is dropped when a truthy detected season differs from the target, or
when a truthy detected episode and a truthy target episode differ. -/
def tier3Accept (title : String) (season : Nat) (episode : Option Nat) : Bool :=
  let iS := findSeason title
  let iE := findEpisode title
  if optTruthy iS && (iS.getD 0 != season) then false
  else if optTruthy iE && optTruthy episode && (iE.getD 0 != episode.getD 0) then false
  else true

/-- mcp.py lines 252-282: the acceptance filter over the whole desperation
result list. -/
def tier3Filter (titles : List String) (season : Nat) (episode : Option Nat) :
    List String :=
  titles.filter (fun t => tier3Accept t season episode)

/-! Helper lemmas shared by the claim theorems. -/

theorem containsTok_of_isPrefixOf (hay p : List Char) (h : p.isPrefixOf hay = true) :
    containsTok hay p = true := by
  cases hay with
  | nil =>
    cases p with
    | nil => rfl
    | cons a as => simp [List.isPrefixOf] at h
  | cons c t => simp [containsTok, h]

theorem containsTok_tail (x : Char) (p hay : List Char)
    (h : containsTok hay (x :: p) = true) : containsTok hay p = true := by
  induction hay with
  | nil => simp [containsTok, List.isEmpty] at h
  | cons c t ih =>
    simp only [containsTok, Bool.or_eq_true] at h ⊢
    rcases h with h | h
    · simp only [List.isPrefixOf, Bool.and_eq_true] at h
      exact Or.inr (containsTok_of_isPrefixOf t p h.2)
    · exact Or.inr (ih h)

theorem mem_insertDesc {α : Type} (key : α → Int) (x a : α) (l : List α) :
    a ∈ insertDesc key x l ↔ a = x ∨ a ∈ l := by
  induction l with
  | nil => simp [insertDesc]
  | cons y ys ih =>
    simp only [insertDesc]
    split
    · simp only [List.mem_cons, ih]
      tauto
    · simp only [List.mem_cons]

theorem mem_sortDescFold {α : Type} (key : α → Int) (l : List α) (acc : List α) (a : α) :
    a ∈ l.foldl (fun acc x => insertDesc key x acc) acc ↔ a ∈ acc ∨ a ∈ l := by
  induction l generalizing acc with
  | nil => simp
  | cons x xs ih =>
    simp only [List.foldl_cons, ih, mem_insertDesc, List.mem_cons]
    tauto

theorem mem_sortDescStable {α : Type} (key : α → Int) (l : List α) (a : α) :
    a ∈ sortDescStable key l ↔ a ∈ l := by
  simp [sortDescStable, mem_sortDescFold]

theorem mem_of_head?_eq_some {α : Type} {l : List α} {a : α} (h : l.head? = some a) :
    a ∈ l := by
  cases l with
  | nil => simp at h
  | cons x xs =>
    simp only [List.head?_cons, Option.some.injEq] at h
    exact h ▸ List.mem_cons_self x xs

theorem rdPollFrom_files_empty (resp : Nat → RDInfoResp)
    (h : ∀ n, (resp n).info.files = []) :
    ∀ (fuel attempt : Nat) (acc : Option RDTorrentInfo),
      (∀ u, acc = some u → u.files = []) →
      ∀ t, rdPollFrom resp fuel attempt acc = some t → t.files = [] := by
  intro fuel
  induction fuel with
  | zero => exact fun attempt acc hacc t ht => hacc t ht
  | succ fuel ih =>
    intro attempt acc hacc t ht
    simp only [rdPollFrom] at ht
    rw [if_neg (by simp [h attempt])] at ht
    refine ih (attempt + 1) _ ?_ t ht
    intro u hu
    by_cases hc : (resp attempt).code = 200
    · rw [if_pos hc] at hu
      exact (Option.some.inj hu) ▸ h attempt
    · rw [if_neg hc] at hu
      exact hacc u hu

theorem rdHydrate_timeout (resp : Nat → RDInfoResp)
    (h : ∀ n, (resp n).info.files = []) : rdHydrate resp = none := by
  unfold rdHydrate
  cases hp : rdPoll resp with
  | none => rfl
  | some t =>
    have ht : t.files = [] :=
      rdPollFrom_files_empty resp h rdPollBudget 0 none
        (fun u hu => Option.noConfusion hu) t hp
    simp [ht]

theorem tbPollFrom_files_empty (find : Nat → Option TBTorrent)
    (h : ∀ n t, find n = some t → t.files = []) :
    ∀ (fuel attempt : Nat) (acc : Option TBTorrent),
      (∀ u, acc = some u → u.files = []) →
      ∀ t, tbPollFrom find fuel attempt acc = some t → t.files = [] := by
  intro fuel
  induction fuel with
  | zero => exact fun attempt acc hacc t ht => hacc t ht
  | succ fuel ih =>
    intro attempt acc hacc t ht
    simp only [tbPollFrom] at ht
    have hacc' : ∀ u, (match find attempt with | some v => some v | none => acc) = some u →
        u.files = [] := by
      intro u hu
      cases hfa : find attempt with
      | some v =>
        rw [hfa] at hu
        exact (Option.some.inj hu) ▸ h attempt v hfa
      | none =>
        rw [hfa] at hu
        exact hacc u hu
    cases hm : (match find attempt with | some v => some v | none => acc) with
    | none =>
      rw [hm] at ht
      exact ih (attempt + 1) none (fun u hu => Option.noConfusion hu) t ht
    | some v =>
      have hv : v.files = [] := hacc' v hm
      rw [hm] at ht
      simp only [hv, ne_eq, not_true_eq_false, if_false] at ht
      exact ih (attempt + 1) (some v) (fun u hu => (Option.some.inj hu) ▸ hv) t ht

theorem tbHydrate_timeout (find : Nat → Option TBTorrent)
    (h : ∀ n t, find n = some t → t.files = []) : tbHydrate find = none := by
  unfold tbHydrate
  cases hp : tbPoll find with
  | none => rfl
  | some t =>
    have ht : t.files = [] :=
      tbPollFrom_files_empty find h tbPollBudget 0 none
        (fun u hu => Option.noConfusion hu) t hp
    simp [ht]

theorem rdPollFrom_congr (resp resp' : Nat → RDInfoResp) :
    ∀ (fuel attempt : Nat) (acc : Option RDTorrentInfo),
      (∀ n, attempt ≤ n → n < attempt + fuel → resp n = resp' n) →
      rdPollFrom resp fuel attempt acc = rdPollFrom resp' fuel attempt acc := by
  intro fuel
  induction fuel with
  | zero => intro attempt acc h; rfl
  | succ fuel ih =>
    intro attempt acc h
    have he : resp attempt = resp' attempt := h attempt (le_refl _) (by omega)
    simp only [rdPollFrom, he]
    by_cases hc : (resp' attempt).code = 200 ∧ (resp' attempt).info.files ≠ []
    · rw [if_pos hc, if_pos hc]
    · rw [if_neg hc, if_neg hc]
      exact ih (attempt + 1) _ (fun n h1 h2 => h n (by omega) (by omega))

theorem headPick_mem (vfiles : List RDFile) (i : Nat)
    (h : (match vfiles.head? with
          | some f => if f.id = 0 then none else some f.id
          | none => none) = some i) : ∃ f ∈ vfiles, f.id = i := by
  cases hh : vfiles.head? with
  | none =>
    rw [hh] at h
    exact Option.noConfusion h
  | some f =>
    rw [hh] at h
    replace h : (if f.id = 0 then none else some f.id) = some i := h
    by_cases hz : f.id = 0
    · rw [if_pos hz] at h
      exact Option.noConfusion h
    · rw [if_neg hz] at h
      exact ⟨f, mem_of_head?_eq_some hh, Option.some.inj h⟩

theorem rdSelectId_mem (vfiles : List RDFile) (so eo : Option Nat) (i : Nat)
    (h : rdSelectId vfiles so eo = some i) : ∃ f ∈ vfiles, f.id = i := by
  rcases so with _ | s <;> rcases eo with _ | e
  · exact headPick_mem vfiles i h
  · exact headPick_mem vfiles i h
  · exact headPick_mem vfiles i h
  · replace h : (match vfiles.find? (fun g => (g.id != 0) && matchesEpisode s e g.path) with
        | some f => some f.id
        | none =>
          match vfiles.head? with
          | some f => if f.id = 0 then none else some f.id
          | none => none) = some i := h
    cases hf : vfiles.find? (fun g => (g.id != 0) && matchesEpisode s e g.path) with
    | some f =>
      rw [hf] at h
      replace h : some f.id = some i := h
      exact ⟨f, List.mem_of_find?_eq_some hf, Option.some.inj h⟩
    | none =>
      rw [hf] at h
      exact headPick_mem vfiles i h

/-! Claim theorems. -/

/-- C2: the spec requires every resolve request routed to the Real-Debrid
adapter to produce a resolution result (URL or typed failure), which requires
`RealDebridService.resolve_stream` to be importable; but the
`VideoParser.score_file` call inside it (realdebrid.py lines 133-140) repeats
the keyword argument `exclude_eac3`, and a Python call expression with a
repeated keyword argument is a compile-time SyntaxError, so the module cannot
be loaded and the claimed behaviour is impossible. -/
theorem C2_duplicate_keyword_bug : distinctKeywords rdScoreCallKeywords = false := by decide

/-- C3: the orchestrator (mcp.py lines 422-432) always passes the keyword
arguments `exclude_hevc`, `exclude_eac3`, `exclude_dolby_vision`, but the
signature of `TorBoxService.resolve_stream` (torbox.py line 19) declares none
of them and has no `**kwargs`, so Python cannot bind the call and every
TorBox-routed resolve invocation raises TypeError instead of running the
adapter. -/
theorem C3_unexpected_keyword_bug :
    keywordsAccepted torboxResolveParams mcpResolveCallKeywords = false ∧
    mcpResolveCallKeywords.contains "exclude_hevc" = true ∧
    torboxResolveParams.contains "exclude_hevc" = false := by decide

/-- C4: the claim says `score_file` is total even on malformed, non-numeric
size values, which should default to a 0 size bonus.  On well-typed integer
sizes the model is a function, hence deterministic and total; but on a string
size the source evaluates `size_bytes / (1024*1024*1024)` without any guard
(parser.py line 141), which raises TypeError, contradicting the claim. -/
theorem C4_totality_bug :
    (∀ (f : String) (n : Int) (e1 e2 e3 : Bool),
        score_file_py f (.int n) e1 e2 e3 = .ok (score_file f n e1 e2 e3)) ∧
    score_file_py "Show.1080p.mkv" (.str "2GB") false false false = .error .typeError := by
  constructor
  · intro f n e1 e2 e3
    unfold score_file_py score_file
    cases h : earlyScore f e1 e2 e3 <;> simp [h]
  · rfl

/-- C5: if `exclude_hevc` is set and the lower-cased filename contains one of
the hevc tokens (parser.py line 102), `score_file` returns -1000 immediately,
whatever the rest of the filename, the size, and the other two exclusion
flags. -/
theorem C5_hevc_hard_exclusion (filename : String) (size : Int) (e2 e3 : Bool)
    (h : containsAny (lowerStr filename) hevcTokens = true) :
    score_file filename size true e2 e3 = -1000 := by
  simp [score_file, earlyScore, h]

/-- Witness for C5 at a concrete 4K/x265 release name. -/
theorem C5_hevc_hard_exclusion_witness :
    containsAny (lowerStr "Show.S01E03.2160p.WEB-DL.x265-GRP.mkv") hevcTokens = true ∧
    score_file "Show.S01E03.2160p.WEB-DL.x265-GRP.mkv" 5000000000 true false false = -1000 :=
  ⟨by decide, C5_hevc_hard_exclusion "Show.S01E03.2160p.WEB-DL.x265-GRP.mkv" 5000000000
    false false (by decide)⟩

/-- C9 counterexample: two distinct adapter failure modes (add failed and
hydration timeout) both return `None` (realdebrid.py lines 81 and 113) and the
transport maps both to the same generic protocol error (mcp.py lines 445-448),
so the transport layer cannot map distinct failure modes to distinct
protocol-level errors as the claim states. -/
theorem C9_counterexample :
    RDResult.addFailed ≠ RDResult.hydrationTimeout ∧
    mcpResolveResponse (rdReturnValue .addFailed) =
      mcpResolveResponse (rdReturnValue .hydrationTimeout) :=
  ⟨by decide, rfl⟩

/-- C9 amended: every resolution call yields exactly one URL or a single
error, and the missing-credentials failure has its own error object (code
-32000); but every adapter failure mode returns `None` and is mapped to the
one generic error -32001 "Failed to resolve stream", so the failure taxonomy
is not distinguishable at the protocol level. -/
theorem C9_amended :
    (∀ r : RDResult,
        mcpResolveResponse (rdReturnValue r) =
          match r with
          | .success url =>
            if url = "" then .error genericResolveError else .result url
          | _ => .error genericResolveError) ∧
    missingCredentialsError ≠ genericResolveError := by
  refine ⟨fun r => ?_, by decide⟩
  cases r <;> rfl

/-- C10: any filename whose lower-cased form contains "dts" also contains the
junk token "ts" (parser.py line 110 tests bare substrings), so with all three
exclusion flags false `score_file` returns exactly -500, whatever the size:
the telesync filter swallows every DTS audio release. -/
theorem C10_dts_junk (filename : String) (size : Int)
    (h : containsTok (lowerStr filename) (tok "dts") = true) :
    score_file filename size false false false = -500 := by
  have hts : containsTok (lowerStr filename) (tok "ts") = true :=
    containsTok_tail 'd' (tok "ts") (lowerStr filename) h
  have hjunk : containsAny (lowerStr filename) junkTokens = true := by
    unfold containsAny junkTokens
    simp only [List.any_eq_true]
    exact ⟨tok "ts", by simp, hts⟩
  simp [score_file, earlyScore, hjunk]

/-- Witness for C10 at a concrete DTS-HD remux name. -/
theorem C10_dts_junk_witness :
    containsTok (lowerStr "Show.S01E01.1080p.BluRay.DTS-HD.MA.5.1.mkv") (tok "dts") = true ∧
    score_file "Show.S01E01.1080p.BluRay.DTS-HD.MA.5.1.mkv" 8000000000 false false false = -500 :=
  ⟨by decide, C10_dts_junk "Show.S01E01.1080p.BluRay.DTS-HD.MA.5.1.mkv" 8000000000 (by decide)⟩

/-- C1 counterexample: the claim's selection rule (first pattern match of the
already-ranked list) fails for the TorBox adapter.  File 1 is the only file
matching the target S01E02 (so under any ranking it is the first match, and
the claim selects id 1), but the first block's selection is dead code:
execution falls through to the duplicated block (torbox.py lines 176-310),
which resets `best_file_id` (line 255) and selects the largest video file with
no episode matching (lines 266-270), so the resolved id is 2 — a file of the
wrong episode. -/
theorem C1_counterexample :
    matchesEpisode 1 2 "Show.S01E02.1080p.mkv" = true ∧
    matchesEpisode 1 2 "Show.S01E03.720p.mkv" = false ∧
    tbResolvePick [⟨1, "Show.S01E02.1080p.mkv", 1000000000⟩,
                   ⟨2, "Show.S01E03.720p.mkv", 3000000000⟩] (some 1) (some 2) = some 2 := by
  decide

/-- C1 amended: the Real-Debrid adapter selects the first file of the ranked
list matching one of the four case-insensitive patterns (with a truthy id, as
the source's Python truthiness requires).  The TorBox adapter computes an
episode match only in a dead first block whose early exits gate the call; the
selection that reaches `requestdl` is recomputed by the duplicated second
block as the largest video file, with no season/episode matching at all.  On
the spec's end-to-end example both adapters still return id 2 (the S01E02
file is also the largest). -/
theorem C1_amended :
    (∀ (files : List RDFile) (cached : Option (List String)) (e1 e2 e3 : Bool)
        (s e : Nat) (f : RDFile),
        (rdRankedFiles files cached e1 e2 e3).find?
            (fun g => (g.id != 0) && matchesEpisode s e g.path) = some f →
        rdPick files cached e1 e2 e3 (some s) (some e) = some f.id) ∧
    (∀ (files : List TBFile) (so eo : Option Nat) (i : Nat),
        tbFirstBlockPick files so eo = some i →
        tbResolvePick files so eo = tbSecondBlockPick files) ∧
    (∀ (files : List TBFile) (v : TBFile) (rest : List TBFile),
        sortDescStable (fun g => g.size)
            (files.filter (fun g => isVideoName g.name)) = v :: rest →
        tbSecondBlockPick files = some v.id) ∧
    rdPick exampleFiles none false false false (some 1) (some 2) = some 2 ∧
    tbResolvePick exampleTBFiles (some 1) (some 2) = some 2 := by
  refine ⟨?_, ?_, ?_, by decide, by decide⟩
  · intro files cached e1 e2 e3 s e f hfind
    unfold rdPick
    by_cases hv : (files.filter (fun g => isVideoName g.path)).isEmpty = true
    · exfalso
      have h0 : files.filter (fun g => isVideoName g.path) = [] := by simpa using hv
      have h1 : rdRankedFiles files cached e1 e2 e3 = [] := by
        unfold rdRankedFiles rdFilteredRanked
        rw [h0]
        rfl
      rw [h1] at hfind
      simp at hfind
    · rw [if_neg hv]
      simp [rdSelectId, hfind]
  · intro files so eo i h
    unfold tbResolvePick
    rw [h]
  · intro files v rest hsort
    have hne : files.isEmpty = false := by
      cases files with
      | nil => simp [sortDescStable] at hsort
      | cons a l => rfl
    unfold tbSecondBlockPick
    rw [if_neg (by simp [hne]), hsort]

/-- Witness for the amended C1 at the spec's end-to-end example: Real-Debrid
selects its first ranked pattern match (id 2), and TorBox's executed second
block selects the largest video file (also id 2). -/
theorem C1_amended_witness :
    rdPick exampleFiles none false false false (some 1) (some 2) = some 2 ∧
    tbSecondBlockPick exampleTBFiles = some 2 :=
  ⟨C1_amended.1 exampleFiles none false false false 1 2 exampleFile2 (by decide),
   C1_amended.2.2.1 exampleTBFiles ⟨2, "Show.S01E02.1080p-GRP.mkv", 2000000000⟩
     [⟨1, "Show.S01E01.720p-GRP.mkv", 1000000000⟩] (by decide)⟩

/-- C6 counterexample: with `exclude_hevc` set, a cached hevc file (id 1,
score -1000) and a larger non-cached file (id 2, score replaced by -2000) are
both dropped by the `> -900` filter, so realdebrid.py lines 161-164 fall back
to all video files sorted by size, and the non-cached file 2 is selected ahead
of the cached file 1 — contradicting "never selected ahead of a cached
candidate". -/
theorem C6_counterexample :
    (["1"] : List String).contains (toString (2 : Nat)) = false ∧
    (["1"] : List String).contains (toString (1 : Nat)) = true ∧
    rdPick [⟨1, "Show.S01E02.x265.mkv", 1000000000⟩, ⟨2, "Show.S01E02.x264.mkv", 2000000000⟩]
      (some ["1"]) true false false (some 1) (some 2) = some 2 := by
  decide

/-- C6 amended: when the pre-check produced a set, a candidate absent from it
gets its score replaced by -2000; such a candidate is then dropped by the
`> -900` filter, so whenever the filtered ranked list is non-empty the
selected file is cached; on the spec's scenario (cached ids `{1}`, two equal
files) file 1 is selected; when the pre-check fails (no set), scores are
unchanged.  Only when every candidate is filtered out does the size-sorted
fallback run, where a non-cached file can win (see the counterexample). -/
theorem C6_amended :
    (∀ (c : List String) (e1 e2 e3 : Bool) (f : RDFile),
        c.contains (toString f.id) = false → rdScored (some c) e1 e2 e3 f = -2000) ∧
    (∀ (files : List RDFile) (c : List String) (e1 e2 e3 : Bool)
        (so eo : Option Nat) (i : Nat),
        rdFilteredRanked files (some c) e1 e2 e3 ≠ [] →
        rdPick files (some c) e1 e2 e3 so eo = some i →
        c.contains (toString i) = true) ∧
    rdPick [⟨1, "Show.S01E02.1080p.mkv", 1000000000⟩, ⟨2, "Show.S01E02.1080p.mkv", 1000000000⟩]
      (some ["1"]) false false false (some 1) (some 2) = some 1 ∧
    (∀ (e1 e2 e3 : Bool) (f : RDFile),
        rdScored none e1 e2 e3 f = score_file f.path f.bytes e1 e2 e3) := by
  refine ⟨?_, ?_, by decide, fun e1 e2 e3 f => rfl⟩
  · intro c e1 e2 e3 f h
    show (if c.contains (toString f.id) = true then score_file f.path f.bytes e1 e2 e3 else -2000)
      = -2000
    rw [h]
    simp
  · intro files c e1 e2 e3 so eo i hne hpick
    unfold rdPick at hpick
    by_cases hv : (files.filter (fun g => isVideoName g.path)).isEmpty = true
    · rw [if_pos hv] at hpick
      exact Option.noConfusion hpick
    · rw [if_neg hv] at hpick
      have hrkE : (rdFilteredRanked files (some c) e1 e2 e3).isEmpty = false := by
        cases hl : rdFilteredRanked files (some c) e1 e2 e3 with
        | nil => exact absurd hl hne
        | cons a l => rfl
      have hrk : rdRankedFiles files (some c) e1 e2 e3 =
          rdFilteredRanked files (some c) e1 e2 e3 := by
        simp [rdRankedFiles, hrkE]
      rw [hrk] at hpick
      obtain ⟨f, hmem, hid⟩ := rdSelectId_mem _ so eo i hpick
      unfold rdFilteredRanked at hmem
      rw [mem_sortDescStable] at hmem
      have hq := (List.mem_filter.mp hmem).2
      have hgt : rdScored (some c) e1 e2 e3 f > -900 := of_decide_eq_true hq
      cases hcb : c.contains (toString f.id) with
      | true =>
        rw [hid] at hcb
        exact hcb
      | false =>
        exfalso
        have h2000 : rdScored (some c) e1 e2 e3 f = -2000 := by
          show (if c.contains (toString f.id) = true then score_file f.path f.bytes e1 e2 e3
            else -2000) = -2000
          rw [hcb]
          simp
        rw [h2000] at hgt
        omega

/-- Witness for the hypothesis-bearing part of the amended C6: on the spec's
scenario the selected id 1 is indeed in the cached set. -/
theorem C6_amended_witness :
    (["1"] : List String).contains (toString (1 : Nat)) = true :=
  C6_amended.2.1
    [⟨1, "Show.S01E02.1080p.mkv", 1000000000⟩, ⟨2, "Show.S01E02.1080p.mkv", 1000000000⟩]
    ["1"] false false false (some 1) (some 2) 1 (by decide) (by decide)

/-- C7: both hydration loops have a fixed budget (15 attempts at 1 s for
Real-Debrid, 30 attempts at 2 s for TorBox), and when no response ever carries
a non-empty file list the resolution exits with the hydration-failure result
(`None` in the source, `none` here) instead of looping; moreover the
Real-Debrid loop consults at most `rdPollBudget` responses. -/
theorem C7_bounded_hydration :
    rdPollBudget = 15 ∧ tbPollBudget = 30 ∧
    rdPollIntervalMs = 1000 ∧ tbPollIntervalMs = 2000 ∧
    (∀ resp : Nat → RDInfoResp, (∀ n, (resp n).info.files = []) →
        rdHydrate resp = none) ∧
    (∀ find : Nat → Option TBTorrent, (∀ n t, find n = some t → t.files = []) →
        tbHydrate find = none) ∧
    (∀ resp resp' : Nat → RDInfoResp, (∀ n, n < rdPollBudget → resp n = resp' n) →
        rdPoll resp = rdPoll resp') := by
  refine ⟨rfl, rfl, rfl, rfl, rdHydrate_timeout, tbHydrate_timeout, ?_⟩
  intro resp resp' h
  exact rdPollFrom_congr resp resp' rdPollBudget 0 none (fun n h1 h2 => h n (by omega))

/-- Witness for C7: a provider that always answers 200 with an empty file
list, and a provider whose list never hydrates a file, both end in the
timeout failure. -/
theorem C7_bounded_hydration_witness :
    rdHydrate (fun _ => ⟨200, ⟨"magnet_conversion", [], []⟩⟩) = none ∧
    tbHydrate (fun _ => some ⟨7, "metaDL", []⟩) = none :=
  ⟨C7_bounded_hydration.2.2.2.2.1 _ (fun _ => rfl),
   C7_bounded_hydration.2.2.2.2.2.1 _ (fun n t ht => by
     injection ht with h
     exact h ▸ rfl)⟩

/-- C8 counterexample: "Show.S00.Special.mkv" has a detected season (the
pattern `S<NN>` matches `S00`, value 0) that disagrees with the target season
1, so the claim says the candidate is rejected; but mcp.py line 267 guards the
check with Python truthiness (`if item_season and ...`), a detected 0 is
falsy, and the candidate is kept. -/
theorem C8_counterexample :
    findSeason "Show.S00.Special.mkv" = some 0 ∧
    (0 : Nat) ≠ 1 ∧
    tier3Accept "Show.S00.Special.mkv" 1 (some 2) = true := by
  decide

/-- C8 amended: with truthy targets, a tier-3 candidate is rejected exactly
when a detected non-zero season differs from the target season or a detected
non-zero episode differs from the target episode (a detected value of 0 is
falsy in Python and is ignored), and every candidate in which neither a
season nor an episode is detectable is kept. -/
theorem C8_amended (title : String) (s e : Nat) (hs : s ≠ 0) (he : e ≠ 0) :
    (tier3Accept title s (some e) = false ↔
      (∃ n, findSeason title = some n ∧ n ≠ 0 ∧ n ≠ s) ∨
      (∃ m, findEpisode title = some m ∧ m ≠ 0 ∧ m ≠ e)) ∧
    (findSeason title = none → findEpisode title = none →
      tier3Accept title s (some e) = true) := by
  unfold tier3Accept
  cases hS : findSeason title <;> cases hE : findEpisode title <;>
    simp [optTruthy, hS, hE, bne_iff_ne, he] <;> tauto

/-- Witness for C8: the spec's tier-3 scenario (title "Foo", season 1,
episode 2): the season-2 candidate is rejected, the matching and the
undetectable candidates are kept. -/
theorem C8_amended_witness :
    tier3Filter ["Foo.S02E05.1080p.mkv", "Foo.S01E02.720p.mkv", "Foo.2013.Complete.mkv"]
      1 (some 2) = ["Foo.S01E02.720p.mkv", "Foo.2013.Complete.mkv"] ∧
    tier3Accept "Foo.S02E05.1080p.mkv" 1 (some 2) = false :=
  ⟨by decide,
   (C8_amended "Foo.S02E05.1080p.mkv" 1 2 (by decide) (by decide)).1.mpr
     (Or.inl ⟨2, by decide, by decide, by decide⟩)⟩

end MCPOmega
